import Mathlib

/-!
Verification of the play-by-play polling and state-reconstruction core of the
mlb-game-stat repository: the runner tracker (`update_runners`, src/test.py),
the commentary generator (`generate_commentary`, src/live_games.py), the stat
accumulator (`update_stats`, src/live_games.py) and the poll loop
(`simulate_game`, src/live_games.py).

The Python functions read nested JSON dictionaries; a missing key raises
`KeyError`.  We embed each field the code accesses as an `Option` (`none`
means the key path is absent) and fallible code as `Except String`, where
`.error` models a raised exception.  External collaborators (the network
name lookup `get_player_name`) are passed in as total functions.
-/

namespace MLBGameStat

/-- A dictionary access `d[k]`: a missing key raises `KeyError`. -/
def reqField {α : Type} (o : Option α) (k : String) : Except String α :=
  match o with
  | some v => .ok v
  | none => .error ("KeyError: " ++ k)

/-- Whether an `Except` result is a normal return (no exception raised). -/
def isOk {α : Type} : Except String α → Bool
  | .ok _ => true
  | .error _ => false

/-- One entry of `play[runners]`: the fields the code reads are
`runner[movement][start]`, `runner[movement][end]` and
`runner[details][runner][id]`. -/
structure RunnerEntry where
  movStart : Option String := none
  movEnd : Option String := none
  runnerId : Option Nat := none
deriving DecidableEq

/-- Embedding of `play[count]`, with the `balls` and `strikes` keys the code reads. -/
structure CountData where
  balls : Option Nat := none
  strikes : Option Nat := none
deriving DecidableEq

/-- The fields of a play dictionary that the core reads.  Each `Option`
records whether the corresponding key path is present in the feed JSON. -/
structure Play where
  eventType : Option String := none      -- play[result][eventType]
  description : Option String := none    -- play[result][description]
  rbi : Option Nat := none               -- play[result][rbi] (guarded by membership)
  batterId : Option Nat := none          -- play[matchup][batter][id]
  pitcherId : Option Nat := none         -- play[matchup][pitcher][id]
  inning : Option Nat := none            -- play[about][inning]
  halfInning : Option String := none     -- play[about][halfInning]
  outs : Option Nat := none              -- play.get(outs, 0)
  count : Option CountData := none       -- play[count] (guarded by membership)
  runners : Option (List RunnerEntry) := none  -- play[runners] (guarded by membership)
deriving DecidableEq

/-- Embedding of `self.current_runners`: the dictionary with keys 1B, 2B, 3B. -/
structure RunnersState where
  first : Option Nat := none
  second : Option Nat := none
  third : Option Nat := none
deriving DecidableEq

/-- The cleared tracker `{1B: None, 2B: None, 3B: None}`. -/
def emptyRunners : RunnersState := {}

/-- The list literal `[1B, 2B, 3B]` used for the end-base test. -/
def occupiableBases : List String := ["1B", "2B", "3B"]

/-- The assignment `self.current_runners[end_base] = id` for an occupiable `end_base`. -/
def placeRunner (s : RunnersState) (b : String) (id : Nat) : RunnersState :=
  if b = "1B" then { s with first := some id }
  else if b = "2B" then { s with second := some id }
  else { s with third := some id }

/-- The `for runner in play[runners]` loop of `update_runners`
(src/test.py lines 118-121): read `movement.end`; when it is an occupiable
base, read `details.runner.id` and place the runner there. -/
def applyMovements : RunnersState → List RunnerEntry → Except String RunnersState
  | s, [] => .ok s
  | s, e :: es =>
    match e.movEnd with
    | none => .error "KeyError: movement.end"
    | some endBase =>
      if endBase ∈ occupiableBases then
        match e.runnerId with
        | none => .error "KeyError: details.runner.id"
        | some rid => applyMovements (placeRunner s endBase rid) es
      else applyMovements s es

/-- The movement-derived state: `if runners is a key of play` guards the loop, so an
absent key leaves the freshly cleared tracker untouched. -/
def movedState (p : Play) : Except String RunnersState :=
  match p.runners with
  | none => .ok emptyRunners
  | some rs => applyMovements emptyRunners rs

/-- Python truthiness of one tracker slot: `None` and the integer `0` are
falsy, every other player id is truthy. -/
def pyTruthy (o : Option Nat) : Bool :=
  match o with
  | none => false
  | some n => n != 0

/-- The test `any(self.current_runners.values())` over the three base slots. -/
def anyRunnerOn (s : RunnersState) : Bool :=
  pyTruthy s.first || pyTruthy s.second || pyTruthy s.third

/-- Embedding of `update_runners` (src/test.py lines 111-135): clear the tracker, apply
explicit movement data, then the batter-advancement chain keyed on
`play[result][eventType]`.  The prior tracker state `st` is discarded by
the clearing assignment, exactly as in the source. -/
def update_runners (_st : RunnersState) (p : Play) : Except String RunnersState :=
  match movedState p with
  | .error e => .error e
  | .ok base =>
    match p.eventType with
    | none => .error "KeyError: result.eventType"
    | some et =>
      if et ∈ ["single", "double", "triple", "homerun", "walk"] then
        match p.batterId with
        | none => .error "KeyError: matchup.batter.id"
        | some b =>
          match et with
          | "single" => .ok { base with first := some b }
          | "double" => .ok { base with second := some b }
          | "triple" => .ok { base with third := some b }
          | "homerun" => .ok base
          | other =>
            -- the final arm of the chain: `elif ... == walk and not any(...)`
            if other = "walk" ∧ anyRunnerOn base = false then
              .ok { base with first := some b }
            else .ok base
      else .ok base

/-- Embedding of `self.commentary_flavors`: the flavor-text table keyed by event type
(src/live_games.py lines 15-83). -/
def commentary_flavors : List (String × List String) :=
  [("strikeout",
    ["And he goes down swinging!",
     "Swings and misses, that\x27s strike three!",
     "Loses the battle, strikeout!"]),
   ("walk",
    ["And he takes ball four for a walk.",
     "Works the count and draws the walk.",
     "Free pass issued to the batter."]),
   ("single",
    ["Lines it into left field for a single!",
     "Base hit up the middle!",
     "Drops it in shallow center for a single.",
     "Ground ball finds a hole! Runner on first."]),
   ("double",
    ["Ripped into the gap! That\x27s a stand-up double!",
     "Off the wall! He\x27s in at second with a double.",
     "Lined down the line for a two-bagger!"]),
   ("triple",
    ["Driven deep to right center! He\x27s going for three!",
     "Gap shot! The outfielder can\x27t cut it off - triple!",
     "Off the wall and it gets away! Triple for the batter!"]),
   ("homerun",
    ["HIGH FLY BALL... DEEP LEFT FIELD... GONE! HOME RUN!",
     "CRUSHED! That ball is way outta here!",
     "Launches one to the upper deck! Homerun!",
     "No doubt about it! That\x27s a moonshot!"]),
   ("groundout",
    ["Ground ball to short, throw to first... out.",
     "Chopper to third, easy play for the out.",
     "Rolls over it, ground out to second base."]),
   ("flyout",
    ["High fly ball to left, caught for the out.",
     "Can of corn to center field.",
     "Lazy pop fly to the infield, caught."]),
   ("double_play",
    ["Ground ball... turn two! Double play!",
     "One-hopper to short, around the horn for two!",
     "Perfect double play ball to second base."]),
   ("wild_pitch",
    ["Wild pitch! The runner advances!",
     "Gets away from the catcher!",
     "Spiked in the dirt, gets past the backstop."]),
   ("passed_ball",
    ["Passed ball! Runner moves up!",
     "Catcher can\x27t handle it!",
     "Tips off the glove, runner takes the base."]),
   ("steal",
    ["Runner goes! SAFE at second base!",
     "Great jump! Stolen base!",
     "Slide... SAFE! Stolen base successful."]),
   ("pitching_change",
    ["And here comes the manager, making a pitching change.",
     "Bullpen gate swings open, new arm coming in.",
     "They\x27re going to the pen for a fresh arm."])]

/-- The lookups `event_type in self.commentary_flavors` and `self.commentary_flavors[event_type]`. -/
def lookupFlavor (et : String) : Option (List String) :=
  (commentary_flavors.find? (fun kv => kv.1 == et)).map (fun kv => kv.2)

/-- Embedding of `random.choice(l)`: the nondeterministic selection, made injectable by the
index `pick` (every choice the source can make is `randomChoice l pick` for
some `pick`). -/
def randomChoice (l : List String) (pick : Nat) : String :=
  l.getD (pick % l.length) ""

/-- The `for runner in runners` loop of `generate_commentary`
(src/live_games.py lines 153-156): for each entry, `movement.end` is read
first, then `movement.start`; a clause is collected when they differ. -/
def runnerTexts : List RunnerEntry → Except String (List String)
  | [] => .ok []
  | e :: es =>
    match e.movEnd with
    | none => .error "KeyError: movement.end"
    | some endB =>
      match e.movStart with
      | none => .error "KeyError: movement.start"
      | some startB =>
        match runnerTexts es with
        | .error err => .error err
        | .ok rest =>
          if endB != startB then
            .ok (("Runner from " ++ startB ++ " to " ++ endB) :: rest)
          else .ok rest

/-- Embedding of `generate_commentary` (src/live_games.py lines 137-168): official
description, optional flavor prefix, optional runner-movement clause,
optional count clause. -/
def generate_commentary (pick : Nat) (p : Play) : Except String String :=
  match p.eventType with
  | none => .error "KeyError: result.eventType"
  | some et =>
    match p.description with
    | none => .error "KeyError: result.description"
    | some desc =>
      let commentary :=
        match lookupFlavor et with
        | some fl => randomChoice fl pick ++ " " ++ desc
        | none => desc
      -- `runners = play.get(runners, [])`
      match runnerTexts (p.runners.getD []) with
      | .error e => .error e
      | .ok texts =>
        let commentary :=
          if texts.isEmpty then commentary
          else commentary ++ " " ++ String.intercalate ", " texts ++ "."
        match p.count with
        | none => .ok commentary
        | some c =>
          match c.balls with
          | none => .error "KeyError: count.balls"
          | some balls =>
            match c.strikes with
            | none => .error "KeyError: count.strikes"
            | some strikes =>
              .ok (commentary ++ " Count was " ++ toString balls ++ "-"
                    ++ toString strikes ++ " with " ++ toString (p.outs.getD 0)
                    ++ " out(s).")

/-- A batter record `{name, ab: 0, h: 0, hr: 0, rbi: 0}`. -/
structure BatterRec where
  name : String
  ab : Nat
  h : Nat
  hr : Nat
  rbi : Nat
deriving DecidableEq

/-- A pitcher record `{name, ip: 0, h: 0, er: 0, so: 0}`. -/
structure PitcherRec where
  name : String
  ip : Nat
  h : Nat
  er : Nat
  so : Nat
deriving DecidableEq

/-- A freshly initialized batter record. -/
def zeroBatter (name : String) : BatterRec := ⟨name, 0, 0, 0, 0⟩

/-- A freshly initialized pitcher record. -/
def zeroPitcher (name : String) : PitcherRec := ⟨name, 0, 0, 0, 0⟩

/-- Lookup in an insertion-ordered association list (a Python dict). -/
def alookup {α : Type} : List (Nat × α) → Nat → Option α
  | [], _ => none
  | (k, v) :: rest, key => if k = key then some v else alookup rest key

/-- The assignment `d[key] = v` on a Python dict: update in place, or append a new key. -/
def aset {α : Type} : List (Nat × α) → Nat → α → List (Nat × α)
  | [], key, v => [(key, v)]
  | (k, w) :: rest, key, v =>
    if k = key then (k, v) :: rest else (k, w) :: aset rest key v

/-- Embedding of `update_stats` (src/live_games.py lines 230-255): lazily initialize both
records, then apply the hit branch, the strikeout branch, or nothing.  The
external name lookup `get_player_name` is passed in as `resolve`. -/
def update_stats (resolve : Nat → String)
    (batter_stats : List (Nat × BatterRec)) (pitcher_stats : List (Nat × PitcherRec))
    (p : Play) (batter_id pitcher_id : Nat) :
    Except String (List (Nat × BatterRec) × List (Nat × PitcherRec)) :=
  match p.eventType with
  | none => .error "KeyError: result.eventType"
  | some et =>
    let brec := (alookup batter_stats batter_id).getD (zeroBatter (resolve batter_id))
    let batters := aset batter_stats batter_id brec
    let prec := (alookup pitcher_stats pitcher_id).getD (zeroPitcher (resolve pitcher_id))
    let pitchers := aset pitcher_stats pitcher_id prec
    if et ∈ ["single", "double", "triple", "homerun"] then
      let brec2 := { brec with h := brec.h + 1 }
      let brec3 := if et = "homerun" then { brec2 with hr := brec2.hr + 1 } else brec2
      let brec4 := { brec3 with ab := brec3.ab + 1 }
      let prec2 := { prec with h := prec.h + 1 }
      -- `if rbi is a key of play[result]: ... += play[result][rbi]`
      let prec3 := match p.rbi with
        | some r => { prec2 with er := prec2.er + r }
        | none => prec2
      .ok (aset batters batter_id brec4, aset pitchers pitcher_id prec3)
    else if et = "strikeout" then
      .ok (batters, aset pitchers pitcher_id { prec with so := prec.so + 1 })
    else
      .ok (batters, pitchers)

/-- The batting average computed by `print_stats` (src/live_games.py line
261), as an exact rational: `h / ab` when `ab > 0`, else `0.000`.  (The
source rounds to three decimals, which is exact at the values this
development evaluates it at.) -/
def battingAvg (r : BatterRec) : ℚ :=
  if 0 < r.ab then (r.h : ℚ) / (r.ab : ℚ) else 0

/-- One fetched feed snapshot, with the key paths the loop reads:
`game_data[liveData][plays][allPlays]` and
`game_data[gameData][status][abstractGameState]`. -/
structure GameData where
  allPlays : Option (List Play) := none
  gameState : Option String := none
deriving DecidableEq

/-- The session state owned by the loop: the poll cursor `self.last_play_id`,
the two stat maps, and (as the observable record of processing) the list of
plays that have been dispatched, in order. -/
structure SimState where
  last_play_id : Nat
  batter_stats : List (Nat × BatterRec)
  pitcher_stats : List (Nat × PitcherRec)
  log : List Play
deriving DecidableEq

/-- The session-start state: cursor zero, empty stat maps. -/
def initState : SimState := ⟨0, [], [], []⟩

/-- The per-play body of the loop (src/live_games.py lines 193-212): read the
matchup ids, resolve names, generate commentary, read the `about` fields for
the inning header, and update the stats.  The processed play is appended to
the observable log. -/
def processPlay (resolve : Nat → String) (pick : Nat) (s : SimState) (p : Play) :
    Except String SimState :=
  match p.batterId with
  | none => .error "KeyError: matchup.batter.id"
  | some batter_id =>
    match p.pitcherId with
    | none => .error "KeyError: matchup.pitcher.id"
    | some pitcher_id =>
      match generate_commentary pick p with
      | .error e => .error e
      | .ok _commentary =>
        match p.inning with
        | none => .error "KeyError: about.inning"
        | some _ =>
          match p.halfInning with
          | none => .error "KeyError: about.halfInning"
          | some _ =>
            match update_stats resolve s.batter_stats s.pitcher_stats p batter_id pitcher_id with
            | .error e => .error e
            | .ok (bs, ps) =>
              .ok { s with batter_stats := bs, pitcher_stats := ps, log := s.log ++ [p] }

/-- The loop `for play in current_plays[self.last_play_id:]`, run sequentially. -/
def processPlays (resolve : Nat → String) (pick : Nat) :
    SimState → List Play → Except String SimState
  | s, [] => .ok s
  | s, p :: ps =>
    match processPlay resolve pick s p with
    | .error e => .error e
    | .ok s2 => processPlays resolve pick s2 ps

/-- One iteration of the `while True` loop of `simulate_game`
(src/live_games.py lines 187-225): fetch (a raised fetch error propagates,
since only `KeyboardInterrupt` is caught), slice the new suffix past the
cursor, process it, advance the cursor, then test the game-over status.
Returns the new session state and whether the status was `Final`. -/
def pollTick (resolve : Nat → String) (pick : Nat) (s : SimState)
    (fetch : Except String GameData) : Except String (SimState × Bool) :=
  match fetch with
  | .error e => .error e
  | .ok gd =>
    match gd.allPlays with
    | none => .error "KeyError: liveData.plays.allPlays"
    | some current_plays =>
      let step : Except String SimState :=
        if current_plays.length > s.last_play_id then
          match processPlays resolve pick s (current_plays.drop s.last_play_id) with
          | .error e => .error e
          | .ok s2 => .ok { s2 with last_play_id := current_plays.length }
        else .ok s
      match step with
      | .error e => .error e
      | .ok s2 =>
        match gd.gameState with
        | none => .error "KeyError: gameData.status.abstractGameState"
        | some status => .ok (s2, status == "Final")

/-- Embedding of `simulate_game` (src/live_games.py lines 177-228), driven by a script of
successive fetch outcomes: iterate `pollTick` until the feed reports `Final`
(normal exit, `true`), the script is exhausted with the game still live
(`false`), or an uncaught exception propagates (`.error`). -/
def simulate_game (resolve : Nat → String) (pick : Nat) :
    SimState → List (Except String GameData) → Except String (SimState × Bool)
  | s, [] => .ok (s, false)
  | s, f :: fs =>
    match pollTick resolve pick s f with
    | .error e => .error e
    | .ok (s2, over) => if over then .ok (s2, true) else simulate_game resolve pick s2 fs

/-- A well-formed flyout play used to exercise one poll iteration. -/
def flyoutPlay : Play :=
  { eventType := some "flyout", description := some "Flies out.",
    batterId := some 1, pitcherId := some 2, inning := some 1, halfInning := some "top" }

/-- A feed snapshot containing exactly `flyoutPlay`, game still live. -/
def flyoutFeed : GameData := { allPlays := some [flyoutPlay], gameState := some "Live" }

/-- The session state after polling `flyoutFeed` from the session start. -/
def afterFlyout : SimState :=
  ⟨1, [(1, zeroBatter "")], [(2, zeroPitcher "")], [flyoutPlay]⟩

/-! ### Helper lemmas about the runner tracker -/

/-- Movement entries whose ending base is never one of the three occupiable
bases leave the tracker unchanged. -/
theorem applyMovements_skip : ∀ (rs : List RunnerEntry) (s : RunnersState),
    (∀ e ∈ rs, ∃ t, e.movEnd = some t ∧ t ∉ occupiableBases) →
    applyMovements s rs = .ok s
  | [], _, _ => rfl
  | e :: es, s, h => by
    obtain ⟨t, ht, hnot⟩ := h e (List.mem_cons_self e es)
    simp only [applyMovements, ht, if_neg hnot]
    exact applyMovements_skip es s (fun e' he' => h e' (List.mem_cons_of_mem e he'))

/-- Well-formed movement entries (an ending base is always present, and a
runner id is present whenever the ending base is occupiable) never raise. -/
theorem applyMovements_total : ∀ (rs : List RunnerEntry) (s : RunnersState),
    (∀ e ∈ rs, ∃ t, e.movEnd = some t ∧ (t ∈ occupiableBases → ∃ i, e.runnerId = some i)) →
    ∃ m, applyMovements s rs = .ok m
  | [], s, _ => ⟨s, rfl⟩
  | e :: es, s, h => by
    obtain ⟨t, ht, hid⟩ := h e (List.mem_cons_self e es)
    by_cases hb : t ∈ occupiableBases
    · obtain ⟨i, hi⟩ := hid hb
      obtain ⟨m, hm⟩ := applyMovements_total es (placeRunner s t i)
        (fun e' he' => h e' (List.mem_cons_of_mem e he'))
      exact ⟨m, by simp only [applyMovements, ht, hi, if_pos hb]; exact hm⟩
    · obtain ⟨m, hm⟩ := applyMovements_total es s
        (fun e' he' => h e' (List.mem_cons_of_mem e he'))
      exact ⟨m, by simp only [applyMovements, ht, if_neg hb]; exact hm⟩

/-! ### C1 -/

/-- C1 counterexample: a homerun play whose runner-movement data places a
runner at first (entry ending at 1B) does not yield the all-empty state —
the homerun arm of `update_runners` is a no-op (`pass`), so movement-derived
placements survive. -/
theorem C1_counterexample :
    update_runners emptyRunners
      { eventType := some "homerun", batterId := some 3,
        runners := some [{ movStart := some "1B", movEnd := some "1B", runnerId := some 5 }] }
      = .ok { first := some 5 } ∧
    ({ first := some 5 } : RunnersState) ≠ emptyRunners :=
  ⟨rfl, by decide⟩

/-- C1 (amended): for a homerun play the tracker returns exactly the
movement-derived placements, independent of the prior state; in particular
it is all-empty whenever no movement entry ends at an occupiable base. -/
theorem C1_homerun_movement_state (st : RunnersState) (p : Play) (b : Nat) (m : RunnersState)
    (het : p.eventType = some "homerun") (hb : p.batterId = some b)
    (hm : movedState p = .ok m) :
    update_runners st p = .ok m ∧
    (∀ rs, p.runners = some rs →
      (∀ e ∈ rs, ∃ t, e.movEnd = some t ∧ t ∉ occupiableBases) →
      update_runners st p = .ok emptyRunners) := by
  have main : update_runners st p = .ok m := by
    unfold update_runners
    rw [hm, het, hb]
    rfl
  refine ⟨main, fun rs hrs hoff => ?_⟩
  have hm2 : movedState p = .ok emptyRunners := by
    unfold movedState
    rw [hrs]
    exact applyMovements_skip rs emptyRunners hoff
  rw [hm] at hm2
  injection hm2 with h2
  rw [main, h2]

/-- C1 witness: a homerun play with no movement data, from a nonempty prior
state, yields the all-empty state. -/
theorem C1_witness :
    update_runners { first := some 8, third := some 2 }
      { eventType := some "homerun", batterId := some 3 }
      = .ok emptyRunners :=
  (C1_homerun_movement_state { first := some 8, third := some 2 }
    { eventType := some "homerun", batterId := some 3 } 3 emptyRunners rfl rfl rfl).1

/-! ### C2 -/

/-- C2 counterexample: the tracker update is not total — a play whose runner
entry lacks the `movement` key raises (`KeyError`) instead of degrading to
recording no runners. -/
theorem C2_counterexample :
    isOk (update_runners emptyRunners
      { eventType := some "groundout", runners := some [{ runnerId := some 4 }] }) = false :=
  rfl

/-- C2 (amended): the tracker update never raises on well-formed plays — the
event type is present, a batter id is present whenever the event type is one
of the five advancement types, and every movement entry carries an ending
base together with a runner id whenever that base is occupiable.  A play with
the movement list absent altogether records no runners from movement data. -/
theorem C2_total_on_wellformed (st : RunnersState) (p : Play) (et : String)
    (het : p.eventType = some et)
    (hbat : et ∈ ["single", "double", "triple", "homerun", "walk"] → ∃ b, p.batterId = some b)
    (hrs : ∀ rs, p.runners = some rs →
      ∀ e ∈ rs, ∃ t, e.movEnd = some t ∧ (t ∈ occupiableBases → ∃ i, e.runnerId = some i)) :
    isOk (update_runners st p) = true ∧
    (p.runners = none → movedState p = .ok emptyRunners) := by
  have hmv : ∃ m, movedState p = .ok m := by
    cases hr : p.runners with
    | none => exact ⟨emptyRunners, by unfold movedState; rw [hr]⟩
    | some rs =>
      unfold movedState
      rw [hr]
      exact applyMovements_total rs emptyRunners (hrs rs hr)
  obtain ⟨m, hm⟩ := hmv
  refine ⟨?_, fun hr => by unfold movedState; rw [hr]⟩
  simp only [update_runners, hm, het]
  by_cases hmem : et ∈ ["single", "double", "triple", "homerun", "walk"]
  · obtain ⟨b, hb⟩ := hbat hmem
    rw [if_pos hmem]
    simp only [hb]
    split <;> first | rfl | (split <;> rfl)
  · rw [if_neg hmem]
    rfl

/-- C2 witness: a well-formed play of an unknown event type with no movement
data succeeds and records no runners. -/
theorem C2_witness :
    isOk (update_runners emptyRunners { eventType := some "balk" }) = true ∧
    (({ eventType := some "balk" } : Play).runners = none →
      movedState { eventType := some "balk" } = .ok emptyRunners) :=
  C2_total_on_wellformed emptyRunners { eventType := some "balk" } "balk" rfl
    (fun hmem => absurd hmem (by decide))
    (fun _ hrs => by cases hrs)

/-! ### C5 -/

/-- C5: the runner-tracker update fully replaces state each play — the
result is independent of the prior tracker state, because `update_runners`
begins by clearing all three bases. -/
theorem C5_state_independent (stA stB : RunnersState) (p : Play) :
    update_runners stA p = update_runners stB p := rfl

/-! ### C6 -/

/-- C6 counterexample: on a double whose movement data places the batter at
first, the batter ends up at second AND remains at first — the advancement
rule only overwrites the advancement base, it does not remove the
movement-derived placement of the batter at first. -/
theorem C6_counterexample :
    update_runners emptyRunners
      { eventType := some "double", batterId := some 7,
        runners := some [{ movStart := some "home", movEnd := some "1B", runnerId := some 7 }] }
      = .ok { first := some 7, second := some 7 } ∧
    ({ first := some 7, second := some 7 } : RunnersState).first = some 7 :=
  ⟨rfl, rfl⟩

/-- C6 (amended): on a single/double/triple the batter-advancement rule runs
after explicit movement placement and overwrites the occupant of the
advancement base only; placements at the other two bases persist. -/
theorem C6_batter_advance (st : RunnersState) (p : Play) (b : Nat) (m : RunnersState)
    (hb : p.batterId = some b) (hm : movedState p = .ok m) :
    (p.eventType = some "single" → update_runners st p = .ok { m with first := some b }) ∧
    (p.eventType = some "double" → update_runners st p = .ok { m with second := some b }) ∧
    (p.eventType = some "triple" → update_runners st p = .ok { m with third := some b }) := by
  refine ⟨fun het => ?_, fun het => ?_, fun het => ?_⟩ <;>
    (unfold update_runners; rw [hm, het, hb]; rfl)

/-- C6 witness: a double whose movement data puts another runner at second
has that runner overwritten by the batter. -/
theorem C6_witness :
    update_runners emptyRunners
      { eventType := some "double", batterId := some 4,
        runners := some [{ movStart := some "1B", movEnd := some "2B", runnerId := some 9 }] }
      = .ok { second := some 4 } :=
  (C6_batter_advance emptyRunners
    { eventType := some "double", batterId := some 4,
      runners := some [{ movStart := some "1B", movEnd := some "2B", runnerId := some 9 }] }
    4 { second := some 9 } rfl rfl).2.1 rfl

/-! ### C7 -/

/-- C7 counterexample: occupancy is tested with Python truthiness — a base
occupied by the runner with id 0 counts as empty (`any` treats the integer 0
as falsy), so a walk still adds the batter at first even though second base
is occupied. -/
theorem C7_counterexample :
    update_runners emptyRunners
      { eventType := some "walk", batterId := some 9,
        runners := some [{ movStart := some "1B", movEnd := some "2B", runnerId := some 0 }] }
      = .ok { first := some 9, second := some 0 } ∧
    ({ first := some 9, second := some 0 } : RunnersState).second ≠ none ∧
    ({ first := some 9, second := some 0 } : RunnersState).first = some 9 :=
  ⟨rfl, by decide, rfl⟩

/-- C7 (amended): on a walk the batter is placed at first exactly when the
movement-derived state has no truthy occupant (`any` over the base slots,
where a missing runner and the id 0 are both falsy); otherwise the
movement-derived state is returned unchanged. -/
theorem C7_walk_truthy (st : RunnersState) (p : Play) (b : Nat) (m : RunnersState)
    (het : p.eventType = some "walk") (hb : p.batterId = some b)
    (hm : movedState p = .ok m) :
    update_runners st p =
      .ok (if anyRunnerOn m then m else { m with first := some b }) := by
  unfold update_runners
  rw [hm, het, hb]
  by_cases hA : anyRunnerOn m
  · rw [if_pos hA]
    show (if ("walk" = "walk" ∧ anyRunnerOn m = false) then
            (.ok { m with first := some b } : Except String RunnersState)
          else .ok m) = .ok m
    rw [if_neg]
    simp [hA]
  · rw [if_neg hA]
    show (if ("walk" = "walk" ∧ anyRunnerOn m = false) then
            (.ok { m with first := some b } : Except String RunnersState)
          else .ok m) = .ok { m with first := some b }
    rw [if_pos]
    exact ⟨rfl, by simpa using hA⟩

/-! ### Association-list (Python dict) lemmas -/

theorem alookup_aset_self {α : Type} : ∀ (m : List (Nat × α)) (k : Nat) (v : α),
    alookup (aset m k v) k = some v
  | [], k, v => by simp [aset, alookup]
  | (k0, w) :: rest, k, v => by
    by_cases h : k0 = k
    · simp [aset, alookup, h]
    · simp [aset, alookup, h, alookup_aset_self rest k v]

theorem alookup_aset_ne {α : Type} : ∀ (m : List (Nat × α)) (k k' : Nat) (v : α),
    k' ≠ k → alookup (aset m k v) k' = alookup m k'
  | [], k, k', v, h => by
    have hne : ¬k = k' := fun hh => h hh.symm
    simp [aset, alookup, hne]
  | (k0, w) :: rest, k, k', v, h => by
    have hne : ¬k = k' := fun hh => h hh.symm
    by_cases h0 : k0 = k
    · subst h0
      simp [aset, alookup, hne]
    · by_cases h1 : k0 = k'
      · subst h1
        simp [aset, alookup, h0]
      · simp [aset, alookup, h0, h1, alookup_aset_ne rest k k' v h]

/-! ### C4 -/

/-- C4 counterexample: a strikeout play does touch the batter map when the
batter has not been seen before — `update_stats` lazily creates a zero-valued
batter record before branching on the event type, so the batter map changes
from empty to a singleton. -/
theorem C4_counterexample :
    update_stats (fun _ => "") [] [] { eventType := some "strikeout" } 1 2
      = .ok ([(1, zeroBatter "")], [(2, ⟨"", 0, 0, 0, 1⟩)]) ∧
    ([(1, zeroBatter "")] : List (Nat × BatterRec)) ≠ [] :=
  ⟨rfl, by decide⟩

/-- C4 (amended): on a strikeout the strikeout count of the pitcher
increments by exactly one (from zero for a previously unseen pitcher), the
other counters of the pitcher are unchanged, every other entry of both maps
is unchanged, and the counters of the batter are unchanged — though a
zero-valued batter record is lazily created when the batter was previously
unseen. -/
theorem C4_strikeout (resolve : Nat → String) (bs : List (Nat × BatterRec))
    (ps : List (Nat × PitcherRec)) (p : Play) (bid pid : Nat)
    (het : p.eventType = some "strikeout") :
    ∃ bs2 ps2, update_stats resolve bs ps p bid pid = .ok (bs2, ps2) ∧
      alookup ps2 pid = some
        (let oldP := (alookup ps pid).getD (zeroPitcher (resolve pid))
         { oldP with so := oldP.so + 1 }) ∧
      (∀ k, k ≠ pid → alookup ps2 k = alookup ps k) ∧
      alookup bs2 bid = some ((alookup bs bid).getD (zeroBatter (resolve bid))) ∧
      (∀ k, k ≠ bid → alookup bs2 k = alookup bs k) := by
  have hstep : update_stats resolve bs ps p bid pid =
      .ok (aset bs bid ((alookup bs bid).getD (zeroBatter (resolve bid))),
           aset (aset ps pid ((alookup ps pid).getD (zeroPitcher (resolve pid)))) pid
             (let oldP := (alookup ps pid).getD (zeroPitcher (resolve pid))
              { oldP with so := oldP.so + 1 })) := by
    simp only [update_stats, het]
    rfl
  refine ⟨_, _, hstep, ?_, ?_, ?_, ?_⟩
  · exact alookup_aset_self _ pid _
  · intro k hk
    rw [alookup_aset_ne _ _ _ _ hk, alookup_aset_ne _ _ _ _ hk]
  · exact alookup_aset_self _ bid _
  · intro k hk
    exact alookup_aset_ne _ _ _ _ hk

/-- C4 witness: a strikeout with both players unseen creates the zero batter
record and a pitcher record whose only nonzero counter is one strikeout. -/
theorem C4_witness :
    ∃ bs2 ps2,
      update_stats (fun _ => "N") [] [] { eventType := some "strikeout" } 3 4
        = .ok (bs2, ps2) ∧
      alookup ps2 4 = some ⟨"N", 0, 0, 0, 1⟩ ∧
      alookup bs2 3 = some (zeroBatter "N") := by
  obtain ⟨bs2, ps2, h1, h2, _, h4, _⟩ :=
    C4_strikeout (fun _ => "N") [] [] { eventType := some "strikeout" } 3 4 rfl
  exact ⟨bs2, ps2, h1, h2, h4⟩

/-! ### C10 -/

/-- The accumulator `update_stats` increments the hits and at-bats of a batter together: it
preserves the invariant that every batter record has `h = ab`. -/
theorem update_stats_h_eq_ab (resolve : Nat → String) (bs : List (Nat × BatterRec))
    (ps : List (Nat × PitcherRec)) (p : Play) (bid pid : Nat)
    (bs2 : List (Nat × BatterRec)) (ps2 : List (Nat × PitcherRec))
    (h0 : ∀ k r, alookup bs k = some r → r.h = r.ab)
    (h : update_stats resolve bs ps p bid pid = .ok (bs2, ps2)) :
    ∀ k r, alookup bs2 k = some r → r.h = r.ab := by
  have hba : ((alookup bs bid).getD (zeroBatter (resolve bid))).h
      = ((alookup bs bid).getD (zeroBatter (resolve bid))).ab := by
    cases hly : alookup bs bid with
    | none => simp [hly, zeroBatter]
    | some r0 => simpa [hly] using h0 bid r0 hly
  have hbase : ∀ k r,
      alookup (aset bs bid ((alookup bs bid).getD (zeroBatter (resolve bid)))) k = some r →
      r.h = r.ab := by
    intro k r hk
    by_cases hkb : k = bid
    · subst hkb
      rw [alookup_aset_self] at hk
      injection hk with hk
      subst hk
      exact hba
    · rw [alookup_aset_ne _ _ _ _ hkb] at hk
      exact h0 k r hk
  cases hET : p.eventType with
  | none => simp [update_stats, hET] at h
  | some et =>
    simp only [update_stats, hET] at h
    split at h
    · -- hit branch: the batter record gains one hit and one at-bat together
      injection h with h2
      injection h2 with hA hB
      subst hA
      intro k r hk
      by_cases hkb : k = bid
      · subst hkb
        rw [alookup_aset_self] at hk
        injection hk with hk
        subst hk
        split <;> simp [hba]
      · rw [alookup_aset_ne _ _ _ _ hkb, alookup_aset_ne _ _ _ _ hkb] at hk
        exact h0 k r hk
    · -- strikeout and other event types leave the batter map at the ensured record
      split at h <;>
        (injection h with h2; injection h2 with hA hB; subst hA; exact hbase)

/-- The per-play loop body preserves the batter invariant `h = ab`. -/
theorem processPlay_h_eq_ab (resolve : Nat → String) (pick : Nat) (s : SimState) (p : Play)
    (s2 : SimState)
    (h0 : ∀ k r, alookup s.batter_stats k = some r → r.h = r.ab)
    (h : processPlay resolve pick s p = .ok s2) :
    ∀ k r, alookup s2.batter_stats k = some r → r.h = r.ab := by
  unfold processPlay at h
  repeat' split at h
  any_goals exact Except.noConfusion h
  rename_i bs ps hup
  injection h with h2
  subst h2
  exact update_stats_h_eq_ab resolve s.batter_stats s.pitcher_stats p _ _ bs ps h0 hup

/-- Processing any list of plays preserves the batter invariant `h = ab`. -/
theorem processPlays_h_eq_ab (resolve : Nat → String) (pick : Nat) (plays : List Play) :
    ∀ s s2 : SimState,
      (∀ k r, alookup s.batter_stats k = some r → r.h = r.ab) →
      processPlays resolve pick s plays = .ok s2 →
      ∀ k r, alookup s2.batter_stats k = some r → r.h = r.ab := by
  induction plays with
  | nil =>
    intro s s2 h0 h
    injection h with h2
    subst h2
    exact h0
  | cons p ps ih =>
    intro s s2 h0 h
    simp only [processPlays] at h
    split at h
    · exact absurd h (by simp)
    · rename_i s1 hp1
      exact ih s1 s2 (processPlay_h_eq_ab resolve pick s p s1 h0 hp1) h

/-- C10: starting from the session-start state, after processing any sequence
of plays every batter record has hits equal to at-bats (both are incremented
together, by one, exactly on single/double/triple/homerun plays), so the
batting average computed for display is 1 whenever at-bats is positive. -/
theorem C10_hits_eq_atbats (resolve : Nat → String) (pick : Nat) (plays : List Play)
    (s2 : SimState) (h : processPlays resolve pick initState plays = .ok s2) :
    ∀ k r, alookup s2.batter_stats k = some r →
      r.h = r.ab ∧ (0 < r.ab → battingAvg r = 1) := by
  intro k r hk
  have heq : r.h = r.ab :=
    processPlays_h_eq_ab resolve pick plays initState s2
      (fun _ _ hkr => Option.noConfusion hkr) h k r hk
  refine ⟨heq, fun hpos => ?_⟩
  unfold battingAvg
  rw [if_pos hpos, heq]
  exact div_self (Nat.cast_ne_zero.mpr hpos.ne')

/-- C10 witness: one single play gives the batter one hit, one at-bat, and a
batting average of exactly 1. -/
theorem C10_witness :
    (⟨"", 1, 1, 0, 0⟩ : BatterRec).h = (⟨"", 1, 1, 0, 0⟩ : BatterRec).ab ∧
    (0 < (⟨"", 1, 1, 0, 0⟩ : BatterRec).ab → battingAvg ⟨"", 1, 1, 0, 0⟩ = 1) :=
  C10_hits_eq_atbats (fun _ => "") 0
    [{ eventType := some "single", description := some "Singles.", batterId := some 7,
       pitcherId := some 8, inning := some 1, halfInning := some "bottom" }]
    ⟨0, [(7, ⟨"", 1, 1, 0, 0⟩)], [(8, ⟨"", 0, 1, 0, 0⟩)],
     [{ eventType := some "single", description := some "Singles.", batterId := some 7,
        pitcherId := some 8, inning := some 1, halfInning := some "bottom" }]⟩
    (by rfl) 7 ⟨"", 1, 1, 0, 0⟩ (by rfl)

/-! ### C3 -/

/-- C3 counterexample: a single failed fetch terminates the whole loop with
the error — `simulate_game` catches only the operator interrupt, so a
network/parse error from `get_game_data` propagates out of the loop. -/
theorem C3_counterexample :
    simulate_game (fun _ => "") 0 initState [.error "ConnectionError"]
      = .error "ConnectionError" := rfl

/-- C3 (amended): a failed fetch does process no plays in that iteration,
but the error is not survived: it propagates immediately out of the poll
iteration and out of the whole loop, which never reaches a later scheduled
poll. -/
theorem C3_fetch_error_fatal (resolve : Nat → String) (pick : Nat) (s : SimState)
    (e : String) :
    pollTick resolve pick s (.error e) = .error e ∧
    ∀ fs, simulate_game resolve pick s (.error e :: fs) = .error e :=
  ⟨rfl, fun _ => rfl⟩

/-! ### C8 -/

/-- The per-play loop body never touches the poll cursor and logs exactly
the one play it processes. -/
theorem processPlay_log (resolve : Nat → String) (pick : Nat) (s : SimState) (p : Play)
    (s2 : SimState) (h : processPlay resolve pick s p = .ok s2) :
    s2.last_play_id = s.last_play_id ∧ s2.log = s.log ++ [p] := by
  unfold processPlay at h
  repeat' split at h
  any_goals exact Except.noConfusion h
  injection h with h2
  subst h2
  exact ⟨rfl, rfl⟩

/-- Processing a list of plays never touches the poll cursor and logs
exactly those plays, in order. -/
theorem processPlays_log (resolve : Nat → String) (pick : Nat) (plays : List Play) :
    ∀ s s2 : SimState, processPlays resolve pick s plays = .ok s2 →
      s2.last_play_id = s.last_play_id ∧ s2.log = s.log ++ plays := by
  induction plays with
  | nil =>
    intro s s2 h
    injection h with h2
    subst h2
    exact ⟨rfl, (List.append_nil _).symm⟩
  | cons p ps ih =>
    intro s s2 h
    simp only [processPlays] at h
    split at h
    · exact absurd h (by simp)
    · rename_i s1 hp1
      obtain ⟨hc1, hl1⟩ := processPlay_log resolve pick s p s1 hp1
      obtain ⟨hc2, hl2⟩ := ih s1 s2 h
      refine ⟨hc2.trans hc1, ?_⟩
      rw [hl2, hl1, List.append_assoc]
      rfl

/-- C8: within one poll iteration that returns normally, the cursor never
decreases; if the fetched play list is not longer than the cursor the whole
session state (cursor, stats, log) is unchanged — nothing is reprocessed;
if it is longer, exactly the suffix beyond the cursor is processed in feed
order and the cursor advances to the new length.  Across any successful run
of the loop the cursor is monotonically non-decreasing. -/
theorem C8_poll_cursor (resolve : Nat → String) (pick : Nat) :
    (∀ (s : SimState) (fetch : Except String GameData) (s2 : SimState) (over : Bool),
      pollTick resolve pick s fetch = .ok (s2, over) →
      s.last_play_id ≤ s2.last_play_id ∧
      ∀ gd plays, fetch = .ok gd → gd.allPlays = some plays →
        (plays.length ≤ s.last_play_id → s2 = s) ∧
        (s.last_play_id < plays.length →
          s2.log = s.log ++ plays.drop s.last_play_id ∧
          s2.last_play_id = plays.length)) ∧
    (∀ (s : SimState) (fetches : List (Except String GameData)) (s2 : SimState) (over : Bool),
      simulate_game resolve pick s fetches = .ok (s2, over) →
      s.last_play_id ≤ s2.last_play_id) := by
  have part1 : ∀ (s : SimState) (fetch : Except String GameData) (s2 : SimState) (over : Bool),
      pollTick resolve pick s fetch = .ok (s2, over) →
      s.last_play_id ≤ s2.last_play_id ∧
      ∀ gd plays, fetch = .ok gd → gd.allPlays = some plays →
        (plays.length ≤ s.last_play_id → s2 = s) ∧
        (s.last_play_id < plays.length →
          s2.log = s.log ++ plays.drop s.last_play_id ∧
          s2.last_play_id = plays.length) := by
    intro s fetch s2 over h
    cases fetch with
    | error e => exact absurd h (by simp [pollTick])
    | ok gd =>
      cases hap : gd.allPlays with
      | none => simp [pollTick, hap] at h
      | some plays =>
        simp only [pollTick, hap] at h
        by_cases hlen : plays.length > s.last_play_id
        · rw [if_pos hlen] at h
          cases hpp : processPlays resolve pick s (plays.drop s.last_play_id) with
          | error e => simp [hpp] at h
          | ok s3 =>
            simp only [hpp] at h
            cases hgs : gd.gameState with
            | none => simp [hgs] at h
            | some status =>
              simp only [hgs] at h
              injection h with h2
              injection h2 with hs2 hov
              obtain ⟨hc3, hl3⟩ := processPlays_log resolve pick _ s s3 hpp
              constructor
              · rw [← hs2]
                exact Nat.le_of_lt hlen
              · intro gd' plays' hgd hap'
                injection hgd with hgd2
                subst hgd2
                rw [hap] at hap'
                injection hap' with hap2
                subst hap2
                refine ⟨fun hle => absurd hlen (Nat.not_lt.mpr hle), fun _ => ?_⟩
                rw [← hs2]
                exact ⟨hl3, rfl⟩
        · rw [if_neg hlen] at h
          cases hgs : gd.gameState with
          | none => simp [hgs] at h
          | some status =>
            simp only [hgs] at h
            injection h with h2
            injection h2 with hs2 hov
            subst hs2
            constructor
            · exact Nat.le_refl _
            · intro gd' plays' hgd hap'
              injection hgd with hgd2
              subst hgd2
              rw [hap] at hap'
              injection hap' with hap2
              subst hap2
              exact ⟨fun _ => rfl, fun hlt => absurd hlt hlen⟩
  refine ⟨part1, ?_⟩
  intro s fetches
  induction fetches generalizing s with
  | nil =>
    intro s2 over h
    injection h with h2
    injection h2 with hs2 hov
    rw [← hs2]
  | cons f fs ih =>
    intro s2 over h
    simp only [simulate_game] at h
    split at h
    · exact absurd h (by simp)
    · rename_i s3 over3 hpt
      split at h
      · injection h with h2
        injection h2 with hs2 hov
        rw [← hs2]
        exact (part1 s f s3 over3 hpt).1
      · exact Nat.le_trans (part1 s f s3 over3 hpt).1 (ih s3 s2 over h)

/-- C8 witness: polling a one-play feed from the session start processes
exactly that play and advances the cursor to 1. -/
theorem C8_witness :
    afterFlyout.log = initState.log ++ [flyoutPlay].drop initState.last_play_id ∧
    afterFlyout.last_play_id = [flyoutPlay].length :=
  (((C8_poll_cursor (fun _ => "") 0).1 initState (.ok flyoutFeed) afterFlyout false
      (by rfl)).2 flyoutFeed [flyoutPlay] rfl (by rfl)).2 (by decide)

/-! ### C9 -/

/-- C9 counterexample: "interference" has no flavor-table entry, yet the
commentary generator raises on it — the runner entry lacks the
`movement.start` key, and the movement-clause loop reads it unguarded. -/
theorem C9_counterexample :
    lookupFlavor "interference" = none ∧
    isOk (generate_commentary 0
      { eventType := some "interference", description := some "Fan interference.",
        runners := some [{ movEnd := some "2B", runnerId := some 4 }] }) = false :=
  ⟨rfl, rfl⟩

/-- C9 (amended): for a play whose event type is absent from the flavor
table, provided the official description is present, every runner entry
carries movement start and end, and count data (when present) carries balls
and strikes, the generator returns normally and its output is exactly the
official description, with the runner-movement clause appended when some
movement has start different from end, and the balls-strikes-outs clause
appended when count data is present; plays missing one of those accessed
fields raise instead. -/
theorem C9_unknown_event_type (pick : Nat) (p : Play) (et desc : String)
    (het : p.eventType = some et) (hdesc : p.description = some desc)
    (hfl : lookupFlavor et = none)
    (texts : List String) (hrt : runnerTexts (p.runners.getD []) = .ok texts) :
    (p.count = none →
      generate_commentary pick p = .ok
        (if texts.isEmpty then desc
         else desc ++ " " ++ String.intercalate ", " texts ++ ".")) ∧
    (∀ c bl st, p.count = some c → c.balls = some bl → c.strikes = some st →
      generate_commentary pick p = .ok
        ((if texts.isEmpty then desc
          else desc ++ " " ++ String.intercalate ", " texts ++ ".")
          ++ " Count was " ++ toString bl ++ "-" ++ toString st ++ " with "
          ++ toString (p.outs.getD 0) ++ " out(s).")) := by
  constructor
  · intro hc
    simp only [generate_commentary, het, hdesc, hfl, hrt, hc]
  · intro c bl st hc hb hs
    simp only [generate_commentary, het, hdesc, hfl, hrt, hc, hb, hs]

/-- C9 witness: an unknown event type with a well-formed movement entry and
count data yields the unembellished description plus the two clauses. -/
theorem C9_witness :
    generate_commentary 0
      { eventType := some "interference", description := some "Fan interference.",
        runners := some [{ movStart := some "1B", movEnd := some "2B", runnerId := some 3 }],
        count := some { balls := some 2, strikes := some 1 }, outs := some 1 }
      = .ok "Fan interference. Runner from 1B to 2B. Count was 2-1 with 1 out(s)." :=
  (C9_unknown_event_type 0
      { eventType := some "interference", description := some "Fan interference.",
        runners := some [{ movStart := some "1B", movEnd := some "2B", runnerId := some 3 }],
        count := some { balls := some 2, strikes := some 1 }, outs := some 1 }
      "interference" "Fan interference." rfl rfl rfl
      ["Runner from 1B to 2B"] rfl).2
    { balls := some 2, strikes := some 1 } 2 1 rfl rfl rfl

/-- C7 witness: a walk play with empty movement-derived state places the
batter at first. -/
theorem C7_witness :
    update_runners emptyRunners { eventType := some "walk", batterId := some 5 }
      = .ok (if anyRunnerOn emptyRunners then emptyRunners
             else { emptyRunners with first := some 5 }) :=
  C7_walk_truthy emptyRunners { eventType := some "walk", batterId := some 5 }
    5 emptyRunners rfl rfl rfl

end MLBGameStat
